import Mathlib

/-!
Verification of the cros-updates Lambda (`lambda_function.py`) against its
natural-language specification.

The source is shallowly embedded:
* Python dicts holding JSON-style string-or-null values become association
  lists `PyDict` (`none` models Python `None`), with Python's `d[k]`, `d.get`
  and item assignment modelled by `pdFind`, `pdGet` and `pdSet`.
* The XML response tree becomes the inductive `XmlElem`; ElementTree's
  `.//tag[@attr]` descendant queries become `findAll` over the preorder
  descendant list.
* Exceptions become `Except PyErr`; `PyErr` distinguishes the Python
  exception classes the source can raise (KeyError, ValueError,
  AttributeError, IndexError, the urllib transport errors and the
  ElementTree parse error).
* The network, the DynamoDB table and the SNS topic are external
  collaborators: the network is an oracle from the formatted request body to
  a response (or failure), the table is a read oracle from the key dict to a
  stored item, and publishes/writes are collected as effects.
-/

/-- The Python exception kinds the source can raise.  `transportError`
models urllib's URLError/HTTPError family, `parseError` models
ElementTree.ParseError (the MalformedResponse kind of the spec, together
with `valueError` from a failed `int(...)`). -/
inductive PyErr where
  | keyError
  | valueError
  | attributeError
  | indexError
  | transportError
  | parseError
deriving DecidableEq, Repr

/-- Decidable equality on `Except`, so that concrete runs of the embedded
code can be checked by evaluation. -/
instance {ε α : Type} [DecidableEq ε] [DecidableEq α] :
    DecidableEq (Except ε α)
  | .error x, .error y =>
      if h : x = y then .isTrue (h ▸ rfl)
      else .isFalse (fun hc => h (Except.error.inj hc))
  | .error _, .ok _ => .isFalse (fun hc => Except.noConfusion hc)
  | .ok _, .error _ => .isFalse (fun hc => Except.noConfusion hc)
  | .ok x, .ok y =>
      if h : x = y then .isTrue (h ▸ rfl)
      else .isFalse (fun hc => h (Except.ok.inj hc))

/-- A Python dict with string keys and string-or-None values, as produced by
`json.loads` on the device catalogue and by DynamoDB items.  `none` models
Python `None`. -/
abbrev PyDict := List (String × Option String)

/-- Python `k in d` / `d[k]` lookup: the value bound to the first occurrence
of `key`, or `none` when the key is absent. -/
def pdFind : PyDict → String → Option (Option String)
  | [], _ => none
  | (k, v) :: rest, key => if k = key then some v else pdFind rest key

/-- Python `d.get(key)`: `None` both when the key is absent and when the
stored value is `None`. -/
def pdGet (d : PyDict) (key : String) : Option String :=
  (pdFind d key).getD none

/-- Python item assignment `d[key] = v`: replace the first binding of `key`,
or append a new binding (dicts preserve insertion order). -/
def pdSet : PyDict → String → Option String → PyDict
  | [], key, v => [(key, v)]
  | (k, w) :: rest, key, v =>
      if k = key then (key, v) :: rest else (k, w) :: pdSet rest key v

/-- Python `str(x)` / f-string rendering of a string-or-None value:
`None` renders as the four-character string. -/
def pyStr : Option String → String
  | none => "None"
  | some s => s

/-- Python `str.split()` whitespace set (space, tab, newline, carriage
return, vertical tab, form feed). -/
def pyIsSpace (c : Char) : Bool :=
  c = ' ' || c = '\t' || c = '\n' || c = '\r' || c = '\x0b' || c = '\x0c'

/-- Accumulator loop behind `pySplit`. -/
def pySplitAux : List Char → List Char → List String
  | [], [] => []
  | [], acc => [String.mk acc.reverse]
  | c :: cs, acc =>
      if pyIsSpace c then
        match acc with
        | [] => pySplitAux cs []
        | _ => String.mk acc.reverse :: pySplitAux cs []
      else pySplitAux cs (c :: acc)

/-- Python `str.split()` with no arguments: split on runs of whitespace,
discarding empty tokens. -/
def pySplit (s : String) : List String :=
  pySplitAux s.toList []

/-- Python `str.lower()` (ASCII range, which covers the source's inputs). -/
def pyLower (s : String) : String :=
  String.mk (s.toList.map Char.toLower)

/-- Python `str.capitalize()`: first character upper-cased, the rest
lower-cased. -/
def pyCapitalize (s : String) : String :=
  match s.toList with
  | [] => ""
  | c :: cs => String.mk (c.toUpper :: cs.map Char.toLower)

/-- Evaluate a digit run, `none` on the first non-digit. -/
def pyDigits : List Char → Nat → Option Nat
  | [], acc => some acc
  | c :: cs, acc =>
      if c.isDigit then pyDigits cs (acc * 10 + (c.toNat - 48)) else none

/-- Strip leading and trailing Python whitespace. -/
def stripWS (cs : List Char) : List Char :=
  ((cs.dropWhile pyIsSpace).reverse.dropWhile pyIsSpace).reverse

/-- Sign-and-digits core of `pyInt`. -/
def pyIntCore : List Char → Option Int
  | [] => none
  | '-' :: rest =>
      match rest with
      | [] => none
      | _ => (pyDigits rest 0).map (fun n => -(n : Int))
  | '+' :: rest =>
      match rest with
      | [] => none
      | _ => (pyDigits rest 0).map (fun n => (n : Int))
  | cs => (pyDigits cs 0).map (fun n => (n : Int))

/-- Python `int(s)` on a string: optional surrounding whitespace, optional
sign, then a non-empty digit run; `none` models the `ValueError` raise. -/
def pyInt (s : String) : Option Int :=
  pyIntCore (stripWS s.toList)

/-- An XML element as parsed by `xml.etree.ElementTree`. -/
inductive XmlElem where
  | mk (tag : String) (attrs : List (String × String)) (children : List XmlElem)

/-- Tag name of an element. -/
def XmlElem.tag : XmlElem → String
  | .mk t _ _ => t

/-- Attribute list (`element.attrib`) of an element. -/
def XmlElem.attrs : XmlElem → List (String × String)
  | .mk _ a _ => a

/-- Child list of an element. -/
def XmlElem.children : XmlElem → List XmlElem
  | .mk _ _ c => c

/-- Attribute lookup `element.attrib[key]`; `none` models the KeyError
raise. -/
def attrGet (e : XmlElem) (key : String) : Option String :=
  e.attrs.lookup key

mutual
/-- All strict descendants of an element in document (preorder) order,
the search space of ElementTree's `.//` XPath axis. -/
def descendants : XmlElem → List XmlElem
  | .mk _ _ cs => descList cs

/-- Descendant lists of a forest, in document order. -/
def descList : List XmlElem → List XmlElem
  | [] => []
  | c :: cs => c :: (descendants c ++ descList cs)
end

/-- The predicate of the XPath pattern `.//tag[@attr]`: elements with the
given tag that carry the given attribute. -/
def hasTagAttr (tag attr : String) (e : XmlElem) : Bool :=
  e.tag = tag && (attrGet e attr).isSome

/-- `root.findall(".//tag[@attr]")`: the matching strict descendants in
document order. -/
def findAll (tag attr : String) (root : XmlElem) : List XmlElem :=
  (descendants root).filter (hasTagAttr tag attr)

/-- Constant `VERSION_ATTRIB` from the source. -/
def VERSION_ATTRIB : String := "ChromeVersion"

/-- Constant `EOL_ATTRIB` from the source. -/
def EOL_ATTRIB : String := "_eol_date"

/-- Constant `SECONDS_IN_DAY = 24 * 60 * 60` from the source. -/
def SECONDS_IN_DAY : Int := 24 * 60 * 60

/-- `self._root.find(EOL_XPATH)`: first match of `.//updatecheck[@_eol_date]`
or `none`. -/
def findEol (root : XmlElem) : Option XmlElem :=
  (findAll "updatecheck" EOL_ATTRIB root).head?

/-- `datetime.date.fromtimestamp(t)`, which converts through the local
timezone: `tz` is the fixed local UTC offset in seconds, and the result is
the local calendar date as a day count since 1970-01-01. -/
def pyDateFromtimestamp (tz t : Int) : Int :=
  Int.fdiv (t + tz) 86400

/-- Days-since-epoch to proleptic Gregorian (year, month, day); all
intermediate divisions act on non-negative values. -/
def civilFromDays (z0 : Int) : Int × Nat × Nat :=
  let z := z0 + 719468
  let era := Int.fdiv z 146097
  let doe := z - era * 146097
  let yoe := Int.fdiv (doe - Int.fdiv doe 1460 + Int.fdiv doe 36524 - Int.fdiv doe 146096) 365
  let y := yoe + era * 400
  let doy := doe - (365 * yoe + Int.fdiv yoe 4 - Int.fdiv yoe 100)
  let mp := Int.fdiv (5 * doy + 2) 153
  let d := doy - Int.fdiv (153 * mp + 2) 5 + 1
  let m := mp + (if mp < 10 then 3 else -9)
  (y + (if m ≤ 2 then 1 else 0), m.toNat, d.toNat)

/-- English month name, as produced by `strftime("%B")` in the C locale. -/
def monthName : Nat → String
  | 1 => "January"
  | 2 => "February"
  | 3 => "March"
  | 4 => "April"
  | 5 => "May"
  | 6 => "June"
  | 7 => "July"
  | 8 => "August"
  | 9 => "September"
  | 10 => "October"
  | 11 => "November"
  | 12 => "December"
  | _ => ""

/-- `d.strftime("%B %Y")` on a date given as a day count since the epoch. -/
def strftimeBY (day : Int) : String :=
  let c := civilFromDays day
  monthName c.2.1 ++ " " ++ toString c.1

namespace UpdateResponse

/-- `UpdateResponse.version`: the `ChromeVersion` attribute of the first
`.//action[@ChromeVersion]` match, `none` when no element matches (the
`for`-loop falls through), and KeyError if the matched element lacked the
attribute (unreachable, see `C10_theorem`). -/
def version (root : XmlElem) : Except PyErr (Option String) :=
  match findAll "action" VERSION_ATTRIB root with
  | [] => .ok none
  | e :: _ =>
      match attrGet e VERSION_ATTRIB with
      | none => .error .keyError
      | some v => .ok (some v)

/-- `UpdateResponse.eol`: `find(EOL_XPATH)` then `element.attrib[EOL_ATTRIB]`;
a `None` element raises AttributeError which is caught and becomes `none`; a
missing attribute would raise an uncaught KeyError; a non-integer value
raises an uncaught ValueError from `int(...)`; otherwise
`date.fromtimestamp(int(value) * SECONDS_IN_DAY)` under local offset `tz`. -/
def eol (tz : Int) (root : XmlElem) : Except PyErr (Option Int) :=
  match findEol root with
  | none => .ok none
  | some e =>
      match attrGet e EOL_ATTRIB with
      | none => .error .keyError
      | some s =>
          match pyInt s with
          | none => .error .valueError
          | some n => .ok (some (pyDateFromtimestamp tz (n * SECONDS_IN_DAY)))

end UpdateResponse

/-- `REQUEST.format(appid=..., track=..., board=..., hardware_class=...)`:
the request body with the four fields substituted (a `None` field renders as
the string `None`, as Python's `format` does). -/
def formatRequest (appid track board hardware_class : Option String) : String :=
  "<?xml version=\"1.0\" encoding=\"UTF-8\"?>\n<request protocol=\"3.0\" ismachine=\"1\">\n  <app appid=\"" ++
    pyStr appid ++ "\" track=\"" ++ pyStr track ++ "\" board=\"" ++
    pyStr board ++ "\" hardware_class=\"" ++ pyStr hardware_class ++
    "\" delta_okay=\"false\">\n    <updatecheck/>\n  </app>\n</request>"

/-- The message composed at lines 170-173: always the `updated from ... to
...` form, with the end-of-life clause appended when `response.eol` is
truthy (a date object is always truthy, `None` is falsy). -/
def mkMessage (name old ver : Option String) (eolv : Option Int) : String :=
  let base := pyStr name ++ " updated from " ++ pyStr old ++ " to " ++ pyStr ver
  match eolv with
  | none => base
  | some d => base ++ " and supported until " ++ strftimeBY d

/-- The externally observable effects of one device's iteration: the SNS
messages published and the DynamoDB items written, in order. -/
structure StepOut where
  published : List String
  written : List PyDict
deriving DecidableEq, Repr

/-- One iteration of the `lambda_handler` loop (lines 142-180) for one
`chromebook` dict.  `table` is the DynamoDB read oracle (key dict to stored
item), `net` the network oracle (formatted request body to parsed response
root, or transport/parse failure), `tz` the local UTC offset used by
`date.fromtimestamp`.  The nested matches mirror the source's evaluation
order: the key projection and `get_item`, the four `chromebook[k]` lookups
of the request comprehension (KeyError before any network call), the
exchange, the name fallback (its default argument is evaluated eagerly, so
`split()[0]` runs even when a name is present), then `response.version` and
`response.eol` (both evaluated in the diagnostic print before the
comparison), and finally the compare/notify/persist block. -/
def deviceStep (tz : Int) (table : PyDict → Option PyDict)
    (net : String → Except PyErr XmlElem) (book : PyDict) :
    Except PyErr StepOut :=
  let keyd := book.filter (fun kv => kv.1 = "appid" || kv.1 = "hardware_class")
  let item := (table keyd).getD book
  match pdFind book "appid" with
  | none => .error .keyError
  | some appid =>
  match pdFind book "track" with
  | none => .error .keyError
  | some track =>
  match pdFind book "board" with
  | none => .error .keyError
  | some board =>
  match pdFind book "hardware_class" with
  | none => .error .keyError
  | some hwv =>
  match net (formatRequest appid track board hwv) with
  | .error e => .error e
  | .ok root =>
  match hwv with
  | none => .error .attributeError
  | some hws =>
  match pySplit hws with
  | [] => .error .indexError
  | tok :: _ =>
  let name := (pdFind book "name").getD (some (pyCapitalize (pyLower tok)))
  match UpdateResponse.version root with
  | .error e => .error e
  | .ok ver =>
  match UpdateResponse.eol tz root with
  | .error e => .error e
  | .ok eolv =>
  let old := pdGet item "version"
  if ver = old then .ok ⟨[], []⟩
  else
    .ok ⟨[mkMessage name old ver eolv],
      [pdSet (pdSet item "version" ver) "name" name]⟩

/-- Accumulated effects of a whole invocation. -/
structure Effects where
  published : List String
  written : List PyDict
deriving DecidableEq, Repr

/-- The `for chromebook in CHROMEBOOKS` loop of `lambda_handler`: devices
are processed sequentially and an uncaught exception aborts the remainder of
the loop (there is no try/except around the body). -/
def handlerLoop (tz : Int) (table : PyDict → Option PyDict)
    (net : String → Except PyErr XmlElem) : List PyDict → Effects × Option PyErr
  | [] => (⟨[], []⟩, none)
  | b :: rest =>
      match deviceStep tz table net b with
      | .error e => (⟨[], []⟩, some e)
      | .ok out =>
          let r := handlerLoop tz table net rest
          (⟨out.published ++ r.1.published, out.written ++ r.1.written⟩, r.2)

/-- `lambda_handler(event, context)`, as a function of its environment: the
table and network oracles, the local timezone offset and the configured
device list. -/
def lambda_handler (tz : Int) (table : PyDict → Option PyDict)
    (net : String → Except PyErr XmlElem) (books : List PyDict) :
    Effects × Option PyErr :=
  handlerLoop tz table net books

/-- A typical response carrying a version and no end-of-life attribute. -/
def respV (v : String) : XmlElem :=
  XmlElem.mk "response" [] [XmlElem.mk "app" []
    [XmlElem.mk "updatecheck" [ ("status", "ok")] [],
     XmlElem.mk "action" [ (VERSION_ATTRIB, v)] []]]

/-- A response carrying both a version and an end-of-life attribute. -/
def respVE (v e : String) : XmlElem :=
  XmlElem.mk "response" [] [XmlElem.mk "app" []
    [XmlElem.mk "updatecheck" [ ("status", "ok"), (EOL_ATTRIB, e)] [],
     XmlElem.mk "action" [ (VERSION_ATTRIB, v)] []]]

/-- A response with no version-bearing `action` element. -/
def respNoV : XmlElem :=
  XmlElem.mk "response" [] [XmlElem.mk "app" []
    [XmlElem.mk "updatecheck" [ ("status", "noupdate")] []]]

/-- A configured device dict, as in `CHROMEBOOKS_JSON`, with no externally
resolved name. -/
def kevinBook : PyDict :=
  [ ("appid", some "app-kevin"), ("track", some "stable-channel"),
    ("board", some "kevin-signed-mpkeys"),
    ("hardware_class", some "KEVIN D25-A3E-B2A-O8Y")]

/-- A previously persisted item for `kevinBook`, carrying an unrelated extra
field. -/
def kevinItem : PyDict :=
  [ ("appid", some "app-kevin"),
    ("hardware_class", some "KEVIN D25-A3E-B2A-O8Y"),
    ("version", some "100.0.1"), ("extra", some "keepme")]

/-- A table with no stored items (every `get_item` misses). -/
def emptyTable : PyDict → Option PyDict := fun _ => none

/-- A table that returns `kevinItem` for every key. -/
def kevinTable : PyDict → Option PyDict := fun _ => some kevinItem

/-- A network oracle that always answers with `respV v`. -/
def netOk (v : String) : String → Except PyErr XmlElem :=
  fun _ => Except.ok (respV v)

/-- A network oracle that always answers with a version-free response. -/
def netNoV : String → Except PyErr XmlElem :=
  fun _ => Except.ok respNoV

/-- Second configured device for the isolation scenario. -/
def bookTwo : PyDict :=
  [ ("appid", some "app-two"), ("track", some "stable-channel"),
    ("board", some "board-two"), ("hardware_class", some "TWO X")]

/-- Third configured device for the isolation scenario. -/
def bookThree : PyDict :=
  [ ("appid", some "app-three"), ("track", some "stable-channel"),
    ("board", some "board-three"), ("hardware_class", some "THREE X")]

/-- A network oracle whose exchange fails (transport error) exactly for
`bookTwo`'s request body and succeeds for every other device. -/
def netFailTwo : String → Except PyErr XmlElem :=
  fun s =>
    if s = formatRequest (some "app-two") (some "stable-channel")
        (some "board-two") (some "TWO X")
    then Except.error PyErr.transportError
    else Except.ok (respV "101.0.2")

/-- A device dict with the required `hardware_class` field absent. -/
def bookNoHw : PyDict :=
  [ ("appid", some "app-nohw"), ("track", some "stable-channel"),
    ("board", some "board-nohw")]

/-- A device dict whose required `track` field is present but empty. -/
def bookEmptyTrack : PyDict :=
  [ ("appid", some "app-et"), ("track", some ""),
    ("board", some "board-et"), ("hardware_class", some "ET X")]

theorem head?_filter_prop {α : Type} (p : α → Bool) (l : List α) (e : α)
    (h : (l.filter p).head? = some e) : p e = true := by
  cases hf : l.filter p with
  | nil => rw [hf] at h; cases h
  | cons a t =>
    rw [hf] at h
    have ha : a = e := by simpa using h
    have hm : a ∈ l.filter p := by rw [hf]; exact List.mem_cons_self a t
    rw [ha] at hm
    exact (List.mem_filter.mp hm).2

theorem pdFind_pdSet (d : PyDict) (k : String) (v : Option String)
    (k' : String) :
    pdFind (pdSet d k v) k' = if k' = k then some v else pdFind d k' := by
  induction d with
  | nil =>
    by_cases h : k = k'
    · subst h; simp [pdSet, pdFind]
    · simp [pdSet, pdFind, h, Ne.symm h]
  | cons kv rest ih =>
    obtain ⟨k0, v0⟩ := kv
    by_cases hk0 : k0 = k
    · subst hk0
      by_cases h : k0 = k'
      · subst h; simp [pdSet, pdFind]
      · simp [pdSet, pdFind, h, Ne.symm h]
    · by_cases h : k0 = k'
      · subst h
        simp [pdSet, pdFind, hk0, Ne.symm hk0]
      · simp [pdSet, pdFind, hk0, h, ih]

theorem deviceStep_eq (tz : Int) (table : PyDict → Option PyDict)
    (net : String → Except PyErr XmlElem) (book : PyDict)
    (appid track board : Option String) (hws tok : String)
    (toks : List String) (root : XmlElem) (ver : Option String)
    (eolv : Option Int)
    (h1 : pdFind book "appid" = some appid)
    (h2 : pdFind book "track" = some track)
    (h3 : pdFind book "board" = some board)
    (h4 : pdFind book "hardware_class" = some (some hws))
    (h5 : net (formatRequest appid track board (some hws)) = Except.ok root)
    (h6 : pySplit hws = tok :: toks)
    (h7 : UpdateResponse.version root = Except.ok ver)
    (h8 : UpdateResponse.eol tz root = Except.ok eolv) :
    deviceStep tz table net book =
      (let item := (table (book.filter
        (fun kv => kv.1 = "appid" || kv.1 = "hardware_class"))).getD book
      let name := (pdFind book "name").getD
        (some (pyCapitalize (pyLower tok)))
      if ver = pdGet item "version" then Except.ok ⟨[], []⟩
      else Except.ok ⟨[mkMessage name (pdGet item "version") ver eolv],
        [pdSet (pdSet item "version" ver) "name" name]⟩) := by
  simp only [deviceStep, h1, h2, h3, h4, h5, h6, h7, h8]

/-- C10: the end-of-life extraction can never raise a missing-key error:
the XPath query only matches elements that carry the `_eol_date` attribute,
and the no-match case is handled by returning an absent eol. -/
theorem C10_theorem (tz : Int) (root : XmlElem) :
    UpdateResponse.eol tz root ≠ Except.error PyErr.keyError ∧
    (findEol root = none → UpdateResponse.eol tz root = Except.ok none) := by
  constructor
  · cases hf : findEol root with
    | none => simp [UpdateResponse.eol, hf]
    | some el =>
      have hf' : ((descendants root).filter
          (hasTagAttr "updatecheck" EOL_ATTRIB)).head? = some el := by
        simpa [findEol, findAll] using hf
      have hp := head?_filter_prop _ _ _ hf'
      have hattr : (attrGet el EOL_ATTRIB).isSome = true := by
        simp [hasTagAttr] at hp
        exact hp.2
      rcases Option.isSome_iff_exists.mp hattr with ⟨s, hs⟩
      cases hpi : pyInt s <;> simp [UpdateResponse.eol, hf, hs, hpi]
  · intro h
    simp [UpdateResponse.eol, h]

theorem C10_witness : UpdateResponse.eol 0 respNoV = Except.ok none :=
  (C10_theorem 0 respNoV).2 rfl

/-- C4 counterexample: decoding the day-count 19000 under a local timezone
offset of -8 hours (US Pacific) yields day 18999, one day before
1970-01-01 + 19000 days, so the decoded date is timezone-dependent. -/
theorem C4_counterexample :
    UpdateResponse.eol (-28800) (respVE "101.0.2" "19000") =
      Except.ok (some 18999) ∧ (18999 : Int) ≠ 19000 := by
  constructor
  · rfl
  · decide

/-- C4 amended: when the local timezone offset is zero (UTC, as in the
deployment environment), the decoded end-of-life value equals exactly the
day-count `D` supplied in the attribute; under a nonzero offset the date
can drift by a day. -/
theorem C4_amended (root el : XmlElem) (s : String) (D : Int)
    (h1 : findEol root = some el)
    (h2 : attrGet el EOL_ATTRIB = some s)
    (h3 : pyInt s = some D) :
    UpdateResponse.eol 0 root = Except.ok (some D) := by
  simp only [UpdateResponse.eol, h1, h2, h3, pyDateFromtimestamp,
    SECONDS_IN_DAY]
  norm_num [Int.mul_fdiv_cancel]

theorem C4_witness :
    UpdateResponse.eol 0 (respVE "101.0.2" "19000") =
      Except.ok (some 19000) :=
  C4_amended (respVE "101.0.2" "19000")
    (XmlElem.mk "updatecheck" [ ("status", "ok"), (EOL_ATTRIB, "19000")] [])
    "19000" 19000 rfl rfl rfl

/-- C6: a present-but-non-integer end-of-life attribute makes the client
signal an error (the ValueError from `int(...)`, the spec's
MalformedResponse kind, uncaught exactly like a transport error), rather
than returning an absent eol. -/
theorem C6_theorem (tz : Int) (root el : XmlElem) (s : String)
    (h1 : findEol root = some el)
    (h2 : attrGet el EOL_ATTRIB = some s)
    (h3 : pyInt s = none) :
    UpdateResponse.eol tz root = Except.error PyErr.valueError := by
  simp only [UpdateResponse.eol, h1, h2, h3]

theorem C6_witness :
    UpdateResponse.eol 0 (respVE "101.0.2" "never") =
      Except.error PyErr.valueError :=
  C6_theorem 0 (respVE "101.0.2" "never")
    (XmlElem.mk "updatecheck" [ ("status", "ok"), (EOL_ATTRIB, "never")] [])
    "never" rfl rfl rfl

/-- C5: when the freshly observed version equals the prior persisted
version, the device's iteration publishes no notification and writes no
state (an idempotent no-op). -/
theorem C5_theorem (tz : Int) (table : PyDict → Option PyDict)
    (net : String → Except PyErr XmlElem) (book : PyDict)
    (appid track board : Option String) (hws tok : String)
    (toks : List String) (root : XmlElem) (ver : Option String)
    (eolv : Option Int)
    (h1 : pdFind book "appid" = some appid)
    (h2 : pdFind book "track" = some track)
    (h3 : pdFind book "board" = some board)
    (h4 : pdFind book "hardware_class" = some (some hws))
    (h5 : net (formatRequest appid track board (some hws)) = Except.ok root)
    (h6 : pySplit hws = tok :: toks)
    (h7 : UpdateResponse.version root = Except.ok ver)
    (h8 : UpdateResponse.eol tz root = Except.ok eolv)
    (h9 : pdGet ((table (book.filter
        (fun kv => kv.1 = "appid" || kv.1 = "hardware_class"))).getD book)
      "version" = ver) :
    deviceStep tz table net book = Except.ok ⟨[], []⟩ := by
  rw [deviceStep_eq tz table net book appid track board hws tok toks root
    ver eolv h1 h2 h3 h4 h5 h6 h7 h8]
  simp [h9]

theorem C5_witness :
    deviceStep 0 kevinTable (netOk "100.0.1") kevinBook =
      Except.ok ⟨[], []⟩ :=
  C5_theorem 0 kevinTable (netOk "100.0.1") kevinBook
    (some "app-kevin") (some "stable-channel") (some "kevin-signed-mpkeys")
    "KEVIN D25-A3E-B2A-O8Y" "KEVIN" [ "D25-A3E-B2A-O8Y"]
    (respV "100.0.1") (some "100.0.1") none
    rfl rfl rfl rfl rfl rfl rfl rfl rfl

/-- C2 counterexample: with no prior persisted state, the handler still
publishes the "updated from ... to ..." form, rendering the absent prior
version as the string None; the claimed "updated to ..." form (without a
"from" clause) is not what the code publishes. -/
theorem C2_counterexample :
    deviceStep 0 emptyTable (netOk "15183.69.0") kevinBook =
      Except.ok ⟨[ "Kevin updated from None to 15183.69.0"],
        [ [ ("appid", some "app-kevin"), ("track", some "stable-channel"),
            ("board", some "kevin-signed-mpkeys"),
            ("hardware_class", some "KEVIN D25-A3E-B2A-O8Y"),
            ("version", some "15183.69.0"), ("name", some "Kevin")]]⟩ ∧
    ("Kevin updated from None to 15183.69.0" : String) ≠
      "Kevin updated to 15183.69.0" := by
  exact ⟨by decide, by decide⟩

/-- C2 amended: on every detected change `lambda_handler` publishes the
single form "(name) updated from (old) to (new)" (plus the end-of-life
clause when an eol date was returned), where an absent prior version is
rendered as the string None; the "updated to" form without a "from" clause
never occurs in `lambda_handler`. -/
theorem C2_amended (tz : Int) (table : PyDict → Option PyDict)
    (net : String → Except PyErr XmlElem) (book : PyDict)
    (appid track board : Option String) (hws tok : String)
    (toks : List String) (root : XmlElem) (ver : Option String)
    (eolv : Option Int) (name : Option String) (item : PyDict)
    (old : Option String)
    (h1 : pdFind book "appid" = some appid)
    (h2 : pdFind book "track" = some track)
    (h3 : pdFind book "board" = some board)
    (h4 : pdFind book "hardware_class" = some (some hws))
    (h5 : net (formatRequest appid track board (some hws)) = Except.ok root)
    (h6 : pySplit hws = tok :: toks)
    (h7 : UpdateResponse.version root = Except.ok ver)
    (h8 : UpdateResponse.eol tz root = Except.ok eolv)
    (hname : name = (pdFind book "name").getD
      (some (pyCapitalize (pyLower tok))))
    (hitem : item = (table (book.filter
      (fun kv => kv.1 = "appid" || kv.1 = "hardware_class"))).getD book)
    (hold : old = pdGet item "version")
    (hch : ver ≠ old) :
    deviceStep tz table net book =
      Except.ok ⟨[mkMessage name old ver eolv],
        [pdSet (pdSet item "version" ver) "name" name]⟩ ∧
    mkMessage name old ver eolv =
      (match eolv with
       | none => pyStr name ++ " updated from " ++ pyStr old ++ " to " ++
           pyStr ver
       | some d => pyStr name ++ " updated from " ++ pyStr old ++ " to " ++
           pyStr ver ++ " and supported until " ++ strftimeBY d) ∧
    pyStr (none : Option String) = "None" := by
  subst hname hitem hold
  refine ⟨?_, ?_, rfl⟩
  · rw [deviceStep_eq tz table net book appid track board hws tok toks root
      ver eolv h1 h2 h3 h4 h5 h6 h7 h8]
    simp [hch]
  · cases eolv <;> rfl

theorem C2_witness :
    deviceStep 0 emptyTable (netOk "15183.69.0") kevinBook =
      Except.ok ⟨[mkMessage (some "Kevin") none (some "15183.69.0") none],
        [pdSet (pdSet kevinBook "version" (some "15183.69.0")) "name"
          (some "Kevin")]⟩ :=
  (C2_amended 0 emptyTable (netOk "15183.69.0") kevinBook
    (some "app-kevin") (some "stable-channel") (some "kevin-signed-mpkeys")
    "KEVIN D25-A3E-B2A-O8Y" "KEVIN" [ "D25-A3E-B2A-O8Y"]
    (respV "15183.69.0") (some "15183.69.0") none (some "Kevin") kevinBook
    none rfl rfl rfl rfl rfl rfl rfl rfl (by decide) rfl rfl (by decide)).1

/-- C3 counterexample: with a concrete prior version and a response carrying
no version-bearing element, the code still publishes a notification (and
writes the absent version back), although the newly observed value is
absent — refuting "a notification is triggered only if the newly observed
value is non-absent". -/
theorem C3_counterexample :
    deviceStep 0 kevinTable netNoV kevinBook =
      Except.ok ⟨[ "Kevin updated from 100.0.1 to None"],
        [ [ ("appid", some "app-kevin"),
            ("hardware_class", some "KEVIN D25-A3E-B2A-O8Y"),
            ("version", none), ("extra", some "keepme"),
            ("name", some "Kevin")]]⟩ ∧
    ([ "Kevin updated from 100.0.1 to None"] : List String) ≠ [] := by
  exact ⟨by decide, by decide⟩

/-- C3 amended: a response with no version-bearing element yields an absent
version without error; absent-to-absent is a no-op; but absence is simply
distinct from every concrete prior version in the comparison, so an absent
new value with a concrete prior version does trigger a notification (and a
write of the absent version), the message rendering the new value as
None. -/
theorem C3_amended (tz : Int) (table : PyDict → Option PyDict)
    (net : String → Except PyErr XmlElem) (book : PyDict)
    (appid track board : Option String) (hws tok : String)
    (toks : List String) (root : XmlElem) (eolv : Option Int)
    (name : Option String) (item : PyDict)
    (h1 : pdFind book "appid" = some appid)
    (h2 : pdFind book "track" = some track)
    (h3 : pdFind book "board" = some board)
    (h4 : pdFind book "hardware_class" = some (some hws))
    (h5 : net (formatRequest appid track board (some hws)) = Except.ok root)
    (h6 : pySplit hws = tok :: toks)
    (h8 : UpdateResponse.eol tz root = Except.ok eolv)
    (hname : name = (pdFind book "name").getD
      (some (pyCapitalize (pyLower tok))))
    (hitem : item = (table (book.filter
      (fun kv => kv.1 = "appid" || kv.1 = "hardware_class"))).getD book)
    (hnov : findAll "action" VERSION_ATTRIB root = []) :
    UpdateResponse.version root = Except.ok none ∧
    (pdGet item "version" = none →
      deviceStep tz table net book = Except.ok ⟨[], []⟩) ∧
    (∀ s : String, pdGet item "version" = some s →
      deviceStep tz table net book =
        Except.ok ⟨[mkMessage name (some s) none eolv],
          [pdSet (pdSet item "version" none) "name" name]⟩) := by
  subst hname hitem
  have h7 : UpdateResponse.version root = Except.ok none := by
    simp [UpdateResponse.version, hnov]
  refine ⟨h7, ?_, ?_⟩
  · intro hold
    rw [deviceStep_eq tz table net book appid track board hws tok toks root
      none eolv h1 h2 h3 h4 h5 h6 h7 h8]
    simp [hold]
  · intro s hold
    rw [deviceStep_eq tz table net book appid track board hws tok toks root
      none eolv h1 h2 h3 h4 h5 h6 h7 h8]
    simp [hold]

theorem C3_witness :
    deviceStep 0 emptyTable netNoV kevinBook = Except.ok ⟨[], []⟩ :=
  (C3_amended 0 emptyTable netNoV kevinBook
    (some "app-kevin") (some "stable-channel") (some "kevin-signed-mpkeys")
    "KEVIN D25-A3E-B2A-O8Y" "KEVIN" [ "D25-A3E-B2A-O8Y"]
    respNoV none (some "Kevin") kevinBook
    rfl rfl rfl rfl rfl rfl rfl (by decide) rfl rfl).2.1 rfl

/-- C8: with no externally resolved name, the display name used in the
notification and the persisted item is the first whitespace token of
`hardware_class`, lower-cased and then capitalized; in particular the token
KEVIN yields the name Kevin. -/
theorem C8_theorem (tz : Int) (table : PyDict → Option PyDict)
    (net : String → Except PyErr XmlElem) (book : PyDict)
    (appid track board : Option String) (hws tok : String)
    (toks : List String) (root : XmlElem) (ver : Option String)
    (eolv : Option Int) (item : PyDict)
    (h1 : pdFind book "appid" = some appid)
    (h2 : pdFind book "track" = some track)
    (h3 : pdFind book "board" = some board)
    (h4 : pdFind book "hardware_class" = some (some hws))
    (h5 : net (formatRequest appid track board (some hws)) = Except.ok root)
    (h6 : pySplit hws = tok :: toks)
    (h7 : UpdateResponse.version root = Except.ok ver)
    (h8 : UpdateResponse.eol tz root = Except.ok eolv)
    (hitem : item = (table (book.filter
      (fun kv => kv.1 = "appid" || kv.1 = "hardware_class"))).getD book)
    (hnoname : pdFind book "name" = none)
    (hch : ver ≠ pdGet item "version") :
    deviceStep tz table net book =
      Except.ok ⟨[mkMessage (some (pyCapitalize (pyLower tok)))
          (pdGet item "version") ver eolv],
        [pdSet (pdSet item "version" ver) "name"
          (some (pyCapitalize (pyLower tok)))]⟩ ∧
    pySplit "KEVIN D25-A3E-B2A-O8Y" = "KEVIN" :: [ "D25-A3E-B2A-O8Y"] ∧
    pyCapitalize (pyLower "KEVIN") = "Kevin" := by
  subst hitem
  refine ⟨?_, by decide, by decide⟩
  rw [deviceStep_eq tz table net book appid track board hws tok toks root
    ver eolv h1 h2 h3 h4 h5 h6 h7 h8]
  simp [hnoname, hch]

theorem C8_witness :
    deviceStep 0 emptyTable (netOk "15183.69.0") kevinBook =
      Except.ok ⟨[mkMessage (some (pyCapitalize (pyLower "KEVIN"))) none
          (some "15183.69.0") none],
        [pdSet (pdSet kevinBook "version" (some "15183.69.0")) "name"
          (some (pyCapitalize (pyLower "KEVIN")))]⟩ :=
  (C8_theorem 0 emptyTable (netOk "15183.69.0") kevinBook
    (some "app-kevin") (some "stable-channel") (some "kevin-signed-mpkeys")
    "KEVIN D25-A3E-B2A-O8Y" "KEVIN" [ "D25-A3E-B2A-O8Y"]
    (respV "15183.69.0") (some "15183.69.0") none kevinBook
    rfl rfl rfl rfl rfl rfl rfl rfl rfl rfl (by decide)).1

/-- C9: on a detected change, the written item is the prior item (or, with
no prior item, the device dict itself) with exactly the version and name
fields replaced; every other field keeps its prior binding. -/
theorem C9_theorem (tz : Int) (table : PyDict → Option PyDict)
    (net : String → Except PyErr XmlElem) (book : PyDict)
    (appid track board : Option String) (hws tok : String)
    (toks : List String) (root : XmlElem) (ver : Option String)
    (eolv : Option Int) (name : Option String) (item : PyDict)
    (h1 : pdFind book "appid" = some appid)
    (h2 : pdFind book "track" = some track)
    (h3 : pdFind book "board" = some board)
    (h4 : pdFind book "hardware_class" = some (some hws))
    (h5 : net (formatRequest appid track board (some hws)) = Except.ok root)
    (h6 : pySplit hws = tok :: toks)
    (h7 : UpdateResponse.version root = Except.ok ver)
    (h8 : UpdateResponse.eol tz root = Except.ok eolv)
    (hname : name = (pdFind book "name").getD
      (some (pyCapitalize (pyLower tok))))
    (hitem : item = (table (book.filter
      (fun kv => kv.1 = "appid" || kv.1 = "hardware_class"))).getD book)
    (hch : ver ≠ pdGet item "version") :
    deviceStep tz table net book =
      Except.ok ⟨[mkMessage name (pdGet item "version") ver eolv],
        [pdSet (pdSet item "version" ver) "name" name]⟩ ∧
    (∀ k, pdFind (pdSet (pdSet item "version" ver) "name" name) k =
      if k = "name" then some name
      else if k = "version" then some ver
      else pdFind item k) := by
  subst hname hitem
  constructor
  · rw [deviceStep_eq tz table net book appid track board hws tok toks root
      ver eolv h1 h2 h3 h4 h5 h6 h7 h8]
    simp [hch]
  · intro k
    rw [pdFind_pdSet, pdFind_pdSet]

theorem C9_witness :
    deviceStep 0 kevinTable (netOk "101.0.2") kevinBook =
      Except.ok ⟨[mkMessage (some "Kevin") (some "100.0.1")
          (some "101.0.2") none],
        [pdSet (pdSet kevinItem "version" (some "101.0.2")) "name"
          (some "Kevin")]⟩ ∧
    pdFind (pdSet (pdSet kevinItem "version" (some "101.0.2")) "name"
      (some "Kevin")) "extra" = some (some "keepme") :=
  ⟨(C9_theorem 0 kevinTable (netOk "101.0.2") kevinBook
    (some "app-kevin") (some "stable-channel") (some "kevin-signed-mpkeys")
    "KEVIN D25-A3E-B2A-O8Y" "KEVIN" [ "D25-A3E-B2A-O8Y"]
    (respV "101.0.2") (some "101.0.2") none (some "Kevin") kevinItem
    rfl rfl rfl rfl rfl rfl rfl rfl (by decide) (by decide)
    (by decide)).1, by decide⟩

/-- C7 counterexample: a device whose required track field is present but
empty does not fail at all — the request is built and sent with the empty
value and the iteration completes, refuting "absent or empty fields fail
fast with a MissingField error before any network call". -/
theorem C7_counterexample :
    deviceStep 0 emptyTable (netOk "101.0.2") bookEmptyTrack =
      Except.ok ⟨[ "Et updated from None to 101.0.2"],
        [ [ ("appid", some "app-et"), ("track", some ""),
            ("board", some "board-et"), ("hardware_class", some "ET X"),
            ("version", some "101.0.2"), ("name", some "Et")]]⟩ := by
  decide

/-- C7 amended: a device dict with a required field absent raises a
key-lookup error (the MissingField analogue) before any network call — the
outcome is the same for every network oracle; a present-but-empty field is
not validated and the exchange proceeds with the empty value. -/
theorem C7_amended (tz : Int) (table : PyDict → Option PyDict)
    (net net' : String → Except PyErr XmlElem) (book : PyDict)
    (h : pdFind book "appid" = none ∨ pdFind book "track" = none ∨
      pdFind book "board" = none ∨ pdFind book "hardware_class" = none) :
    deviceStep tz table net book = Except.error PyErr.keyError ∧
    deviceStep tz table net book = deviceStep tz table net' book := by
  have key : ∀ m : String → Except PyErr XmlElem,
      deviceStep tz table m book = Except.error PyErr.keyError := by
    intro m
    rcases h with h | h | h | h <;>
      cases hA : pdFind book "appid" <;>
      cases hT : pdFind book "track" <;>
      cases hB : pdFind book "board" <;>
      cases hH : pdFind book "hardware_class" <;>
      simp_all [deviceStep]
  exact ⟨key net, by rw [key net, key net']⟩

theorem C7_witness :
    deviceStep 0 emptyTable (netOk "101.0.2") bookNoHw =
      Except.error PyErr.keyError ∧
    deviceStep 0 emptyTable (netOk "101.0.2") bookNoHw =
      deviceStep 0 emptyTable netNoV bookNoHw :=
  C7_amended 0 emptyTable (netOk "101.0.2") netNoV bookNoHw
    (Or.inr (Or.inr (Or.inr rfl)))

set_option maxRecDepth 4000 in
/-- C1 counterexample: with three configured devices whose second exchange
raises a transport error, the invocation publishes only the first device's
notification and stops — the third device's notify/persist logic, which
would have completed on its own, never runs. -/
theorem C1_counterexample :
    lambda_handler 0 emptyTable netFailTwo [kevinBook, bookTwo, bookThree] =
      (⟨[ "Kevin updated from None to 101.0.2"],
        [ [ ("appid", some "app-kevin"), ("track", some "stable-channel"),
            ("board", some "kevin-signed-mpkeys"),
            ("hardware_class", some "KEVIN D25-A3E-B2A-O8Y"),
            ("version", some "101.0.2"), ("name", some "Kevin")]]⟩,
       some PyErr.transportError) ∧
    deviceStep 0 emptyTable netFailTwo bookThree =
      Except.ok ⟨[ "Three updated from None to 101.0.2"],
        [ [ ("appid", some "app-three"), ("track", some "stable-channel"),
            ("board", some "board-three"),
            ("hardware_class", some "THREE X"),
            ("version", some "101.0.2"), ("name", some "Three")]]⟩ ∧
    ("Three updated from None to 101.0.2" : String) ∉
      [ "Kevin updated from None to 101.0.2"] := by
  refine ⟨by decide, by decide, by decide⟩

/-- C1 amended: a per-device failure is not isolated: the loop aborts at
the first failing device, so devices processed before it complete their
notify/persist logic and contribute their effects, while the failing device
and all subsequent devices contribute nothing; the error is surfaced as the
invocation's outcome. -/
theorem C1_amended (tz : Int) (table : PyDict → Option PyDict)
    (net : String → Except PyErr XmlElem) (pre post : List PyDict)
    (b : PyDict) (e : PyErr)
    (hpre : ∀ d ∈ pre, ∃ out, deviceStep tz table net d = Except.ok out)
    (hb : deviceStep tz table net b = Except.error e) :
    lambda_handler tz table net (pre ++ b :: post) =
      ((lambda_handler tz table net pre).1, some e) := by
  induction pre with
  | nil => simp [lambda_handler, handlerLoop, hb]
  | cons p ps ih =>
    obtain ⟨out, hout⟩ := hpre p (List.mem_cons_self p ps)
    have ih' := ih (fun d hd => hpre d (List.mem_cons_of_mem p hd))
    simp only [lambda_handler] at ih' ⊢
    simp only [List.cons_append, handlerLoop, hout]
    simp only [List.append_eq]
    rw [ih']

set_option maxRecDepth 4000 in
theorem C1_witness :
    lambda_handler 0 emptyTable netFailTwo
        ([kevinBook] ++ bookTwo :: [bookThree]) =
      ((lambda_handler 0 emptyTable netFailTwo [kevinBook]).1,
        some PyErr.transportError) := by
  refine C1_amended 0 emptyTable netFailTwo [kevinBook] [bookThree] bookTwo
    PyErr.transportError ?_ (by decide)
  intro d hd
  have hd' : d = kevinBook := by simpa using hd
  subst hd'
  refine ⟨⟨[ "Kevin updated from None to 101.0.2"],
    [ [ ("appid", some "app-kevin"), ("track", some "stable-channel"),
        ("board", some "kevin-signed-mpkeys"),
        ("hardware_class", some "KEVIN D25-A3E-B2A-O8Y"),
        ("version", some "101.0.2"), ("name", some "Kevin")]]⟩, by decide⟩
